import Mathlib

/-!
Shallow embedding of the coinflip store module (`src/rngtest/store.py`) and
of the result-aggregation model (`src/coinflip/_randtests/common/result.py`),
with theorems settling the specification claims about them.

Python numbers (`statistic`, `p`) are modelled as rationals; filesystem
trees, pickled artifacts and raised exceptions are modelled explicitly.
-/

set_option autoImplicit false

namespace Coinflip

/-- Outcome of one statistical evaluation: the `TestResult` dataclass of
`result.py`, holding the two-symbol alphabet (`heads`/`tails`), the test
statistic and the p-value. -/
structure TestResult (α : Type) where
  heads : α
  tails : α
  statistic : ℚ
  p : ℚ
  deriving DecidableEq

/-- In-memory state of a `MultiTestResult`: the insertion-ordered mapping
from sub-test feature to `TestResult`, together with the `lru_cache` slots
of the three `@property` getters (`none` = not computed yet).  Because the
class fixes `__hash__` to the constant `0` and the cache key is the
instance itself, a populated slot keeps being returned for that instance
even after the mapping is mutated. -/
structure MultiTestResult (φ α : Type) where
  entries : List (φ × TestResult α)
  statisticsCache : Option (List ℚ)
  pvaluesCache : Option (List ℚ)
  minCache : Option (φ × TestResult α)

/-- Body of the `statistics` property: each sub-result's statistic, in
iteration (insertion) order. -/
def computeStatistics {φ α : Type} (entries : List (φ × TestResult α)) : List ℚ :=
  entries.map (fun e => e.2.statistic)

/-- Body of the `pvalues` property: each sub-result's `p`, in iteration
(insertion) order. -/
def computePvalues {φ α : Type} (entries : List (φ × TestResult α)) : List ℚ :=
  entries.map (fun e => e.2.p)

/-- One step of the `min` scan: a later entry replaces the current minimum
only when its `p` is strictly smaller. -/
def minStep {φ α : Type} (acc y : φ × TestResult α) : φ × TestResult α :=
  if y.2.p < acc.2.p then y else acc

/-- Body of the `min` property: the first entry is the initial minimum and
the scan replaces it only on strictly smaller `p`; `none` models the
`StopIteration` escaping `next(items)` on an empty mapping. -/
def computeMin {φ α : Type} : List (φ × TestResult α) → Option (φ × TestResult α)
  | [] => none
  | x :: rest => some (rest.foldl minStep x)

/-- Access to the `statistics` property, with the `lru_cache` semantics: a
populated slot is returned as is, otherwise the value is computed from the
current contents and cached.  Returns the value and the updated state. -/
def MultiTestResult.statistics {φ α : Type} (s : MultiTestResult φ α) :
    List ℚ × MultiTestResult φ α :=
  match s.statisticsCache with
  | some v => (v, s)
  | none =>
      let v := computeStatistics s.entries
      (v, ⟨s.entries, some v, s.pvaluesCache, s.minCache⟩)

/-- Access to the `pvalues` property, with the `lru_cache` semantics. -/
def MultiTestResult.pvalues {φ α : Type} (s : MultiTestResult φ α) :
    List ℚ × MultiTestResult φ α :=
  match s.pvaluesCache with
  | some v => (v, s)
  | none =>
      let v := computePvalues s.entries
      (v, ⟨s.entries, s.statisticsCache, some v, s.minCache⟩)

/-- Access to the `min` property, with the `lru_cache` semantics. -/
def MultiTestResult.min {φ α : Type} (s : MultiTestResult φ α) :
    Option (φ × TestResult α) × MultiTestResult φ α :=
  match s.minCache with
  | some v => (some v, s)
  | none =>
      match computeMin s.entries with
      | none => (none, s)
      | some v => (some v, ⟨s.entries, s.statisticsCache, s.pvaluesCache, some v⟩)

/-- The inherited `dict.__setitem__` on the entries list: replace the value
at an existing key in place, or append a new pair at the end. -/
def setEntry {φ α : Type} [DecidableEq φ] :
    List (φ × TestResult α) → φ → TestResult α → List (φ × TestResult α)
  | [], f, r => [(f, r)]
  | (g, u) :: rest, f, r =>
      if g = f then (g, r) :: rest else (g, u) :: setEntry rest f r

/-- Inserting into a `MultiTestResult` mutates the mapping but touches no
`lru_cache` slot (nothing in the class invalidates the cached properties). -/
def MultiTestResult.setItem {φ α : Type} [DecidableEq φ] (s : MultiTestResult φ α)
    (f : φ) (r : TestResult α) : MultiTestResult φ α :=
  ⟨setEntry s.entries f r, s.statisticsCache, s.pvaluesCache, s.minCache⟩

/-- Exceptions raised by the store module: its own error classes, the
builtin filesystem and unpickling errors it can surface, and the caller's
exception escaping a transaction's block. -/
inductive PyErr
  | fileNotFoundError
  | notADirectoryError
  | isADirectoryError
  | eofError
  | storeExistsError
  | nameConflictError
  | storeNotFoundError
  | dataNotFoundError
  | bodyException
  deriving DecidableEq

/-- A value stored in a results mapping: a single `TestResult`, or a
`MultiTestResult`'s mapping (features modelled as integers). -/
inductive StoredResult
  | single (r : TestResult Int)
  | multi (m : List (Int × TestResult Int))
  deriving DecidableEq

/-- Decoded content of an artifact file: a pickled results mapping, a
pickled data series, or truncated bytes (a zero-byte or interrupted write)
on which `pickle.load` raises `EOFError`. -/
inductive Content
  | resultsPickle (m : List (String × StoredResult))
  | seriesPickle (s : List Int)
  | truncated
  deriving DecidableEq

/-- A value successfully returned by `pickle.load`. -/
inductive LoadedValue
  | mapping (m : List (String × StoredResult))
  | series (s : List Int)
  deriving DecidableEq

/-- Behaviour of `pickle.load` on an artifact's content. -/
def pickle_load : Content → Except PyErr LoadedValue
  | .resultsPickle m => .ok (.mapping m)
  | .seriesPickle s => .ok (.series s)
  | .truncated => .error .eofError

/-- The content `pickle.dump` writes for a loaded (possibly mutated)
value. -/
def pickle_dump : LoadedValue → Content
  | .mapping m => .resultsPickle m
  | .series s => .seriesPickle s

/-- A filesystem node: a regular file with decoded content, or a directory
with an ordered list of named children.  The storage root (`data_dir`) is
the children list of a directory node. -/
inductive FsTree
  | file (content : Content)
  | dir (children : List (String × FsTree))

/-- Whether a node is a directory (`DirEntry.is_dir` / `Path.is_file`
negated). -/
def FsTree.isDir : FsTree → Bool
  | .file _ => false
  | .dir _ => true

/-- Resolution of a name among a directory's children. -/
def lookupChild : List (String × FsTree) → String → Option FsTree
  | [], _ => none
  | (m, t) :: rest, n => if m = n then some t else lookupChild rest n

/-- Removal of the child with the given name (the effect of `rmdir` or
`unlink` on the parent directory). -/
def removeChild : List (String × FsTree) → String → List (String × FsTree)
  | [], _ => []
  | (m, t) :: rest, n => if m = n then rest else (m, t) :: removeChild rest n

/-- Overwriting (or creating) the child with the given name. -/
def setChild : List (String × FsTree) → String → FsTree → List (String × FsTree)
  | [], n, t => [(n, t)]
  | (m, u) :: rest, n, t =>
      if m = n then (m, t) :: rest else (m, u) :: setChild rest n t

/-- Artifact file names of `store.py`. -/
def PROFILED_DATA_FNAME : String := "series.pickle"

/-- Name of the results artifact inside a store directory. -/
def RESULTS_FNAME : String := "results.pickle"

/-- Bound on timestamp-name synthesis attempts in `init_store`. -/
def UNIQUE_STORENAME_ATTEMPTS : Nat := 3

/-- The storage root path (`AppDirs`-derived `data_dir`), as an abstract
path string; store paths are children of it. -/
def data_dir : String := "data_dir"

/-- The path of a store: `data_dir / store_name`. -/
def store_path (store_name : String) : String := data_dir ++ "/" ++ store_name

/-- Names of the child directories of the storage root, in enumeration
order (`scandir` entries that are directories). -/
def dirNames (cs : List (String × FsTree)) : List String :=
  (cs.filter (fun e => e.2.isDir)).map Prod.fst

/-- The full sequence of names `ls_stores` yields when the storage root
exists: the function body contains two identical enumeration loops, so
every child directory name appears twice. -/
def store_names (cs : List (String × FsTree)) : List String :=
  dirNames cs ++ dirNames cs

/-- Embeds `ls_stores`: the first `scandir` loop is not guarded, so when the
storage root does not exist consuming the generator raises
`FileNotFoundError` (only the duplicated second loop catches it); when the
root exists, both loops run and each child directory name is yielded
twice. -/
def ls_stores : Option (List (String × FsTree)) → Except PyErr (List String)
  | none => .error .fileNotFoundError
  | some cs => .ok (store_names cs)

mutual

/-- Embeds `rm_tree`: unlink the regular files among the path's children,
recurse into the child directories, then `rmdir` the now-empty directory.
Applied to a path that is a regular file, the `glob` loop finds nothing and
`rmdir` raises `NotADirectoryError`. -/
def rm_tree : FsTree → Except PyErr Unit
  | .file _ => .error .notADirectoryError
  | .dir children => rm_tree_children children

/-- The deletion loop of `rm_tree` over a directory's children. -/
def rm_tree_children : List (String × FsTree) → Except PyErr Unit
  | [] => .ok ()
  | (_, .file _) :: rest => rm_tree_children rest
  | (_, .dir cs) :: rest => do
      rm_tree (.dir cs)
      rm_tree_children rest

end

/-- Embeds `drop`: `rm_tree` on the store's path.  Returns the updated
storage root and the outcome: on success the store's entry is gone; on a
missing store `glob` finds nothing and `rmdir` raises `FileNotFoundError`,
leaving the root unchanged. -/
def drop (root : List (String × FsTree)) (store_name : String) :
    List (String × FsTree) × Except PyErr Unit :=
  match lookupChild root store_name with
  | none => (root, .error .fileNotFoundError)
  | some t =>
      match rm_tree t with
      | .ok () => (removeChild root store_name, .ok ())
      | .error e => (root, .error e)

/-- Name-resolution phase of `init_store`.  With a user-supplied name the
slugified name is used (`slugify` is imported from outside the store
module, so it is kept abstract).  Without one, the loop draws up to
`UNIQUE_STORENAME_ATTEMPTS` timestamp candidates (`cands` holds the
successive `datetime.now().strftime(...)` values), breaking at the first
one not occurring in the `ls_stores()` enumeration and raising
`NameConflictError` when all attempts collide. -/
def resolveStoreName (slugify : String → String) (root : List (String × FsTree)) :
    Option String → List String → Except PyErr String
  | some name, _ => .ok (slugify name)
  | none, cands =>
      match (cands.take UNIQUE_STORENAME_ATTEMPTS).find?
          (fun c => !(store_names root).contains c) with
      | some c => .ok c
      | none => .error .nameConflictError

/-- Embeds `init_store`: resolve the store name, then `Path.mkdir` the store
directory; on `FileExistsError`, either raise `StoreExistsError` or, when
`overwrite` is set, `rm_tree` the existing entry and `mkdir` again.
Returns the updated storage root together with the resolved name and path,
or the raised error (in which case the root is unchanged). -/
def init_store (slugify : String → String) (root : List (String × FsTree))
    (name : Option String) (overwrite : Bool) (cands : List String) :
    List (String × FsTree) × Except PyErr (String × String) :=
  match resolveStoreName slugify root name cands with
  | .error e => (root, .error e)
  | .ok store_name =>
      match lookupChild root store_name with
      | none =>
          (root ++ [(store_name, .dir [])], .ok (store_name, store_path store_name))
      | some t =>
          if overwrite then
            match rm_tree t with
            | .ok () =>
                (removeChild root store_name ++ [(store_name, .dir [])],
                  .ok (store_name, store_path store_name))
            | .error e => (root, .error e)
          else (root, .error .storeExistsError)

/-- Embeds `get_data`: `StoreNotFoundError` when the store's path does not
exist; otherwise `open` the sequence artifact and unpickle it, translating
a missing artifact's `FileNotFoundError` into `DataNotFoundError`.  Other
filesystem errors (a store path that is a regular file, an artifact that is
a directory) and `EOFError` from a truncated artifact are not caught. -/
def get_data (root : List (String × FsTree)) (store_name : String) :
    Except PyErr LoadedValue :=
  match lookupChild root store_name with
  | none => .error .storeNotFoundError
  | some (.file _) => .error .notADirectoryError
  | some (.dir cs) =>
      match lookupChild cs PROFILED_DATA_FNAME with
      | none => .error .dataNotFoundError
      | some (.dir _) => .error .isADirectoryError
      | some (.file c) => pickle_load c

/-- Load phase of `open_results`: a missing artifact gives the empty
mapping, and so does a truncated one (`EOFError` is caught); otherwise the
pickled value is loaded. -/
def load_results_value : Option Content → Except PyErr LoadedValue
  | none => .ok (.mapping [])
  | some c =>
      match pickle_load c with
      | .error .eofError => .ok (.mapping [])
      | .error e => .error e
      | .ok v => .ok v

/-- Outcome of the caller's block in an `open_results` transaction: normal
completion or an escaping exception, in both cases with the (possibly
mutated) yielded object at that point. -/
inductive BodyOutcome
  | completed (v : LoadedValue)
  | raised (v : LoadedValue)

/-- Embeds the `write=False` branch of `open_results`: compute the loaded
value (missing or truncated artifact recovered as the empty mapping), then
reopen the artifact with `open(results_path, "rb")` — which raises
`FileNotFoundError` when the artifact does not exist — and yield the loaded
value.  Nothing is persisted on exit. -/
def open_results_read (root : List (String × FsTree)) (store_name : String) :
    Except PyErr LoadedValue :=
  match lookupChild root store_name with
  | some (.dir cs) =>
      match lookupChild cs RESULTS_FNAME with
      | some (.dir _) => .error .isADirectoryError
      | some (.file c) =>
          match load_results_value (some c) with
          | .error e => .error e
          | .ok v => .ok v
      | none => .error .fileNotFoundError
  | some (.file _) => .error .notADirectoryError
  | none => .error .fileNotFoundError

/-- Embeds the `write=True` branch of `open_results`: after the load phase,
`open(results_path, "wb")` truncates the artifact before the caller's block
runs; on normal completion the (possibly mutated) object is pickled over
it, while an exception escaping the block propagates and leaves the
artifact truncated.  Returns the updated storage root and the outcome. -/
def open_results_write (root : List (String × FsTree)) (store_name : String)
    (body : LoadedValue → BodyOutcome) :
    List (String × FsTree) × Except PyErr Unit :=
  match lookupChild root store_name with
  | some (.dir cs) =>
      let artifact : Except PyErr (Option Content) :=
        match lookupChild cs RESULTS_FNAME with
        | some (.dir _) => .error .isADirectoryError
        | some (.file c) => .ok (some c)
        | none => .ok none
      match artifact with
      | .error e => (root, .error e)
      | .ok a =>
          match load_results_value a with
          | .error e => (root, .error e)
          | .ok v =>
              match body v with
              | .completed v2 =>
                  (setChild root store_name
                      (.dir (setChild cs RESULTS_FNAME (.file (pickle_dump v2)))),
                    .ok ())
              | .raised _ =>
                  (setChild root store_name
                      (.dir (setChild cs RESULTS_FNAME (.file .truncated))),
                    .error .bodyException)
  | some (.file _) => (root, .error .notADirectoryError)
  | none => (root, .error .fileNotFoundError)

/-- A persisted results mapping with one entry, used as a concrete
previously-persisted state. -/
def examplePrevMap : List (String × StoredResult) :=
  [("Monobit", .single ⟨1, 0, 5, 1/2⟩)]

/-- A storage root holding one store whose results artifact pickles
`examplePrevMap`. -/
def exampleRoot : List (String × FsTree) :=
  [("mystore", .dir [(RESULTS_FNAME, .file (.resultsPickle examplePrevMap))])]

/-- A transaction body that mutates the yielded mapping (files a new result)
and then raises. -/
def exampleRaisingBody : LoadedValue → BodyOutcome :=
  fun _ => .raised (.mapping (("Runs", .single ⟨1, 0, 3, 1/4⟩) :: examplePrevMap))

/-- A first sub-test result (statistic 3, p 1/2). -/
def exampleResult1 : TestResult Int := ⟨1, 0, 3, 1/2⟩

/-- A second sub-test result (statistic 7, p 1/5). -/
def exampleResult2 : TestResult Int := ⟨1, 0, 7, 1/5⟩

/-- A fresh one-entry `MultiTestResult` (no property accessed yet). -/
def exampleMulti0 : MultiTestResult Int Int := ⟨[(1, exampleResult1)], none, none, none⟩

/-- The state after accessing `statistics` once (populating its cache) and
then inserting a second entry. -/
def exampleMulti2 : MultiTestResult Int Int :=
  (exampleMulti0.statistics.2).setItem 2 exampleResult2

/-- The three-entry mapping of the specification's tie-breaking example:
p-values 1/2, 1/5, 1/5 in insertion order. -/
def exampleTieEntries : List (Int × TestResult Int) :=
  [(1, ⟨1, 0, 2, 1/2⟩), (2, ⟨1, 0, 3, 1/5⟩), (3, ⟨1, 0, 4, 1/5⟩)]

/-- A fresh `MultiTestResult` over `exampleTieEntries`. -/
def exampleTieMulti : MultiTestResult Int Int := ⟨exampleTieEntries, none, none, none⟩

end Coinflip

namespace Coinflip

/-- Helper: a name absent from a children list is not resolved. -/
theorem lookupChild_eq_none_of_not_mem (cs : List (String × FsTree)) (n : String)
    (h : n ∉ cs.map Prod.fst) : lookupChild cs n = none := by
  induction cs with
  | nil => rfl
  | cons e rest ih =>
      obtain ⟨m, t⟩ := e
      simp only [List.map_cons, List.mem_cons, not_or] at h
      obtain ⟨h1, h2⟩ := h
      rw [lookupChild, if_neg (fun hh => h1 hh.symm), ih h2]

/-- Helper: removing a child under duplicate-free names makes its name
unresolvable. -/
theorem lookupChild_removeChild_self (cs : List (String × FsTree)) (n : String)
    (hnd : (cs.map Prod.fst).Nodup) : lookupChild (removeChild cs n) n = none := by
  induction cs with
  | nil => rfl
  | cons e rest ih =>
      simp only [List.map_cons, List.nodup_cons] at hnd
      obtain ⟨hmem, hnd'⟩ := hnd
      rw [removeChild]
      by_cases hm : e.1 = n
      · rw [if_pos hm]
        exact lookupChild_eq_none_of_not_mem rest n (hm ▸ hmem)
      · rw [if_neg hm]
        rw [lookupChild, if_neg hm]
        exact ih hnd'

/-- Helper: `rm_tree` succeeds on every directory, however nested (the
recursion is total and no step can fail on directory children). -/
theorem rm_tree_children_ok : ∀ cs : List (String × FsTree), rm_tree_children cs = .ok ()
  | [] => by rw [rm_tree_children]
  | (_, .file _) :: rest => by
      rw [rm_tree_children]
      exact rm_tree_children_ok rest
  | (_, .dir cs) :: rest => by
      rw [rm_tree_children, rm_tree, rm_tree_children_ok cs, rm_tree_children_ok rest]
      rfl

/-- Helper: `rm_tree` on a directory node returns successfully. -/
theorem rm_tree_dir_ok (cs : List (String × FsTree)) : rm_tree (.dir cs) = .ok () := by
  rw [rm_tree]
  exact rm_tree_children_ok cs

/-- C1: refuted on the code — `open_results(store, write=True)` opens the
results artifact with mode `"wb"`, truncating it before the caller's block
runs; when the block raises, the artifact is left truncated, so a
subsequent read-transaction recovers the empty mapping instead of the
previously persisted one.  Evaluated at a store persisting one result and
a block that mutates the mapping and raises. -/
theorem open_results_write_raise_truncates_artifact :
    (open_results_write exampleRoot "mystore" exampleRaisingBody).2
        = .error .bodyException
    ∧ (open_results_write exampleRoot "mystore" exampleRaisingBody).1
        = [("mystore", .dir [(RESULTS_FNAME, .file .truncated)])]
    ∧ open_results_read (open_results_write exampleRoot "mystore" exampleRaisingBody).1
        "mystore" = .ok (.mapping [])
    ∧ (LoadedValue.mapping examplePrevMap) ≠ .mapping [] := by
  refine ⟨rfl, rfl, rfl, ?_⟩
  simp [examplePrevMap]

/-- C2: refuted on the code — the `statistics` view (like `pvalues` and
`min`) is memoized with `lru_cache` keyed on the instance and nothing
invalidates it, so after an entry is inserted following a first access the
view returns the stale cached list, not a pure function of the current
contents.  Evaluated on an instance whose mapping grew from one to two
entries after the first access. -/
theorem multi_result_views_cache_stale :
    exampleMulti2.statistics.1 = [3]
    ∧ computeStatistics exampleMulti2.entries = [3, 7]
    ∧ exampleMulti2.statistics.1 ≠ computeStatistics exampleMulti2.entries := by
  refine ⟨rfl, rfl, ?_⟩
  intro h
  simp [exampleMulti2, exampleMulti0, exampleResult1, exampleResult2,
    MultiTestResult.statistics, MultiTestResult.setItem, setEntry, computeStatistics] at h

/-- C3: refuted on the code — in a read-only transaction on a store whose
directory exists but holds no results artifact, `open_results` computes the
empty mapping but then reopens `results_path` with `open(..., "rb")`, which
raises `FileNotFoundError`; the transaction fails instead of yielding the
empty mapping. -/
theorem open_results_read_missing_artifact_raises :
    open_results_read [("mystore", .dir [])] "mystore" = .error .fileNotFoundError := rfl

/-- C4: refuted on the code — the first enumeration loop of `ls_stores`
calls `scandir` on the storage root without a guard, so when the root does
not exist consuming the generator raises `FileNotFoundError` rather than
yielding nothing (only the duplicated second loop catches the error). -/
theorem ls_stores_missing_root_raises :
    ls_stores none = .error .fileNotFoundError := rfl

/-- Helper: the fold of `minStep` over `rest` started at `a` lands on an
element of `a :: rest` whose `p` is strictly below every earlier element's
and at most every later element's. -/
theorem foldlMin_split {φ α : Type} :
    ∀ (rest : List (φ × TestResult α)) (a : φ × TestResult α),
      ∃ l1 l2, a :: rest = l1 ++ (rest.foldl minStep a) :: l2
        ∧ (rest.foldl minStep a).2.p ≤ a.2.p
        ∧ (∀ y ∈ l1, (rest.foldl minStep a).2.p < y.2.p)
        ∧ (∀ y ∈ l2, (rest.foldl minStep a).2.p ≤ y.2.p) := by
  intro rest
  induction rest with
  | nil =>
      intro a
      exact ⟨[], [], rfl, le_refl _, by simp, by simp⟩
  | cons b rest ih =>
      intro a
      rw [List.foldl_cons]
      by_cases hp : b.2.p < a.2.p
      · rw [show minStep a b = b from if_pos hp]
        obtain ⟨l1, l2, heq, hle, h1, h2⟩ := ih b
        refine ⟨a :: l1, l2, ?_, le_of_lt (lt_of_le_of_lt hle hp), ?_, h2⟩
        · rw [List.cons_append, ← heq]
        · intro y hy
          rcases List.mem_cons.mp hy with h | h
          · exact h ▸ lt_of_le_of_lt hle hp
          · exact h1 y h
      · rw [show minStep a b = a from if_neg hp]
        obtain ⟨l1, l2, heq, hle, h1, h2⟩ := ih a
        generalize hgen : List.foldl minStep a rest = z at heq hle h1 h2 ⊢
        cases l1 with
        | nil =>
            simp only [List.nil_append, List.cons.injEq] at heq
            obtain ⟨hz, hl2⟩ := heq
            refine ⟨[], b :: l2, ?_, hle, by simp, ?_⟩
            · rw [List.nil_append, ← hz, hl2]
            · intro y hy
              rcases List.mem_cons.mp hy with h | h
              · exact h ▸ le_trans hle (le_of_not_lt hp)
              · exact h2 y h
        | cons c l1' =>
            simp only [List.cons_append, List.cons.injEq] at heq
            obtain ⟨hc, hrest⟩ := heq
            have hca : z.2.p < a.2.p := by
              have := h1 c (List.mem_cons_self c l1')
              rwa [← hc] at this
            refine ⟨a :: b :: l1', l2, ?_, hle, ?_, h2⟩
            · rw [hrest]
              simp
            · intro y hy
              rcases List.mem_cons.mp hy with h | h
              · exact h ▸ hca
              · rcases List.mem_cons.mp h with h' | h'
                · exact h' ▸ lt_of_lt_of_le hca (le_of_not_lt hp)
                · exact h1 y (List.mem_cons_of_mem c h')

/-- C5: confirmed — on a freshly built non-empty `MultiTestResult` (the
`min` cache not yet populated), accessing `min` runs the scan and returns
an entry of the mapping splitting it into a prefix of strictly larger
p-values and a suffix of p-values at least as large: the globally smallest
`p`, earliest entry winning ties. -/
theorem min_selects_earliest_smallest {φ α : Type} (s : MultiTestResult φ α)
    (x : φ × TestResult α) (rest : List (φ × TestResult α))
    (hent : s.entries = x :: rest) (hcache : s.minCache = none) :
    ∃ z l1 l2, s.min.1 = some z
      ∧ s.entries = l1 ++ z :: l2
      ∧ (∀ y ∈ l1, z.2.p < y.2.p)
      ∧ (∀ y ∈ l2, z.2.p ≤ y.2.p) := by
  obtain ⟨l1, l2, heq, _, h1, h2⟩ := foldlMin_split rest x
  refine ⟨rest.foldl minStep x, l1, l2, ?_, by rw [hent]; exact heq, h1, h2⟩
  simp [MultiTestResult.min, hcache, hent, computeMin]

/-- Witness for C5 at the specification's tie-breaking example (p-values
1/2, 1/5, 1/5 in insertion order). -/
theorem min_selects_earliest_smallest_witness :
    exampleTieMulti.entries
        = (1, ⟨1, 0, 2, 1/2⟩) :: [(2, ⟨1, 0, 3, 1/5⟩), (3, ⟨1, 0, 4, 1/5⟩)]
    ∧ exampleTieMulti.minCache = none
    ∧ ∃ z l1 l2, exampleTieMulti.min.1 = some z
        ∧ exampleTieMulti.entries = l1 ++ z :: l2
        ∧ (∀ y ∈ l1, z.2.p < y.2.p)
        ∧ (∀ y ∈ l2, z.2.p ≤ y.2.p) :=
  ⟨rfl, rfl, min_selects_earliest_smallest exampleTieMulti _ _ rfl rfl⟩

/-- C6: confirmed — name synthesis in `init_store` draws at most
`UNIQUE_STORENAME_ATTEMPTS` (3) timestamp candidates, checking each against
the `ls_stores()` enumeration; when all three collide with existing store
names, `NameConflictError` is raised and the storage root is unchanged (no
directory is created). -/
theorem init_store_name_conflict (slugify : String → String)
    (root : List (String × FsTree)) (cands : List String) (overwrite : Bool)
    (_hlen : UNIQUE_STORENAME_ATTEMPTS ≤ cands.length)
    (hcoll : ∀ c ∈ cands.take UNIQUE_STORENAME_ATTEMPTS, c ∈ dirNames root) :
    init_store slugify root none overwrite cands
      = (root, .error .nameConflictError) := by
  have hfind : (cands.take UNIQUE_STORENAME_ATTEMPTS).find?
      (fun c => !(store_names root).contains c) = none := by
    rw [List.find?_eq_none]
    intro c hc
    simp
    exact List.mem_append.mpr (Or.inl (hcoll c hc))
  simp only [init_store, resolveStoreName]
  rw [hfind]

/-- Witness for C6: three existing stores and three colliding candidate
names. -/
theorem init_store_name_conflict_witness :
    UNIQUE_STORENAME_ATTEMPTS ≤ (["a", "b", "c"] : List String).length
    ∧ (∀ c ∈ (["a", "b", "c"] : List String).take UNIQUE_STORENAME_ATTEMPTS,
        c ∈ dirNames [("a", FsTree.dir []), ("b", FsTree.dir []), ("c", FsTree.dir [])])
    ∧ init_store id [("a", FsTree.dir []), ("b", FsTree.dir []), ("c", FsTree.dir [])]
        none false ["a", "b", "c"]
        = ([("a", FsTree.dir []), ("b", FsTree.dir []), ("c", FsTree.dir [])],
            .error .nameConflictError) :=
  ⟨by decide, by decide, init_store_name_conflict id _ _ false (by decide) (by decide)⟩

/-- C7: confirmed — when the resolved store name's directory already
exists, `init_store` without `overwrite` raises `StoreExistsError` and
leaves the storage root untouched, while with `overwrite` it removes the
existing entry (whose recursive deletion succeeds) and recreates it as an
empty directory, returning the resolved name and its path. -/
theorem init_store_existing_store (slugify : String → String)
    (root : List (String × FsTree)) (name : String)
    (cs : List (String × FsTree)) (cands : List String)
    (h : lookupChild root (slugify name) = some (.dir cs)) :
    init_store slugify root (some name) false cands
        = (root, .error .storeExistsError)
    ∧ init_store slugify root (some name) true cands
        = (removeChild root (slugify name) ++ [(slugify name, .dir [])],
            .ok (slugify name, store_path (slugify name))) := by
  constructor
  · simp [init_store, resolveStoreName, h]
  · simp [init_store, resolveStoreName, h, rm_tree_dir_ok cs]

/-- Witness for C7: a store named `x` holding one file. -/
theorem init_store_existing_store_witness :
    lookupChild [("x", FsTree.dir [("f", FsTree.file .truncated)])] (id "x")
        = some (.dir [("f", FsTree.file .truncated)])
    ∧ init_store id [("x", FsTree.dir [("f", FsTree.file .truncated)])]
        (some "x") false [] = ([("x", FsTree.dir [("f", FsTree.file .truncated)])],
          .error .storeExistsError)
    ∧ init_store id [("x", FsTree.dir [("f", FsTree.file .truncated)])]
        (some "x") true []
        = (removeChild [("x", FsTree.dir [("f", FsTree.file .truncated)])] (id "x")
            ++ [(id "x", .dir [])], .ok (id "x", store_path (id "x"))) :=
  ⟨rfl,
    (init_store_existing_store id [("x", FsTree.dir [("f", FsTree.file .truncated)])]
      "x" [("f", FsTree.file .truncated)] [] rfl).1,
    (init_store_existing_store id [("x", FsTree.dir [("f", FsTree.file .truncated)])]
      "x" [("f", FsTree.file .truncated)] [] rfl).2⟩

/-- C8: confirmed — `get_data` raises `StoreNotFoundError` when the store's
directory does not exist and the distinct `DataNotFoundError` when the
directory exists but holds no sequence artifact; when the artifact is
present its unpickled series is returned. -/
theorem get_data_distinct_errors (root : List (String × FsTree)) (store_name : String) :
    (lookupChild root store_name = none →
      get_data root store_name = .error .storeNotFoundError)
    ∧ (∀ cs, lookupChild root store_name = some (.dir cs) →
        lookupChild cs PROFILED_DATA_FNAME = none →
        get_data root store_name = .error .dataNotFoundError)
    ∧ (∀ cs s, lookupChild root store_name = some (.dir cs) →
        lookupChild cs PROFILED_DATA_FNAME = some (.file (.seriesPickle s)) →
        get_data root store_name = .ok (.series s))
    ∧ PyErr.storeNotFoundError ≠ PyErr.dataNotFoundError := by
  refine ⟨fun h => by simp [get_data, h], fun cs h1 h2 => by simp [get_data, h1, h2],
    fun cs s h1 h2 => by simp [get_data, h1, h2, pickle_load], by decide⟩

/-- Witness for C8 at a missing store, an empty store, and a store holding a
pickled series. -/
theorem get_data_distinct_errors_witness :
    get_data [] "s" = .error .storeNotFoundError
    ∧ get_data [("s", FsTree.dir [])] "s" = .error .dataNotFoundError
    ∧ get_data [("s", FsTree.dir [(PROFILED_DATA_FNAME,
        FsTree.file (.seriesPickle [0, 1, 1]))])] "s" = .ok (.series [0, 1, 1]) :=
  ⟨(get_data_distinct_errors [] "s").1 rfl,
    (get_data_distinct_errors [("s", FsTree.dir [])] "s").2.1 [] rfl rfl,
    (get_data_distinct_errors [("s", FsTree.dir [(PROFILED_DATA_FNAME,
      FsTree.file (.seriesPickle [0, 1, 1]))])] "s").2.2.1 _ [0, 1, 1] rfl rfl⟩

/-- C9: confirmed — the recursive delete is a total function that succeeds
on every finite directory tree, however nested (`rm_tree_dir_ok` is proved
by structural induction over the tree), and `drop` on such a store removes
its entry so that the store's path no longer resolves. -/
theorem drop_removes_nested_tree (root : List (String × FsTree))
    (store_name : String) (cs : List (String × FsTree))
    (hnd : (root.map Prod.fst).Nodup)
    (h : lookupChild root store_name = some (.dir cs)) :
    rm_tree (.dir cs) = .ok ()
    ∧ (drop root store_name).2 = .ok ()
    ∧ lookupChild (drop root store_name).1 store_name = none := by
  have hok := rm_tree_dir_ok cs
  refine ⟨hok, by simp [drop, h, hok], ?_⟩
  simp only [drop, h, hok]
  exact lookupChild_removeChild_self root store_name hnd

/-- Witness for C9 on a store containing a nested subdirectory with a
file. -/
theorem drop_removes_nested_tree_witness :
    (([("s", FsTree.dir [("f", FsTree.file .truncated),
        ("d", FsTree.dir [("g", FsTree.file (.seriesPickle [1]))])])] :
          List (String × FsTree)).map Prod.fst).Nodup
    ∧ lookupChild [("s", FsTree.dir [("f", FsTree.file .truncated),
        ("d", FsTree.dir [("g", FsTree.file (.seriesPickle [1]))])])] "s"
        = some (.dir [("f", FsTree.file .truncated),
            ("d", FsTree.dir [("g", FsTree.file (.seriesPickle [1]))])])
    ∧ (rm_tree (.dir [("f", FsTree.file .truncated),
          ("d", FsTree.dir [("g", FsTree.file (.seriesPickle [1]))])]) = .ok ()
        ∧ (drop [("s", FsTree.dir [("f", FsTree.file .truncated),
            ("d", FsTree.dir [("g", FsTree.file (.seriesPickle [1]))])])] "s").2 = .ok ()
        ∧ lookupChild (drop [("s", FsTree.dir [("f", FsTree.file .truncated),
            ("d", FsTree.dir [("g", FsTree.file (.seriesPickle [1]))])])] "s").1 "s"
            = none) :=
  ⟨by simp, rfl, drop_removes_nested_tree _ "s" _ (by simp) rfl⟩

/-- C10: confirmed — when the storage root exists, fully consuming
`ls_stores()` runs both copies of the enumeration loop, yielding each child
directory's name exactly twice and `2 * n` names in total for `n` child
directories. -/
theorem ls_stores_duplicate_enumeration (cs : List (String × FsTree))
    (hnd : (cs.map Prod.fst).Nodup) :
    ∃ l, ls_stores (some cs) = .ok l
      ∧ l.length = 2 * (dirNames cs).length
      ∧ ∀ n ∈ dirNames cs, l.count n = 2 := by
  refine ⟨store_names cs, rfl, ?_, ?_⟩
  · simp [store_names, two_mul]
  · intro n hn
    have hsub : List.Sublist (dirNames cs) (cs.map Prod.fst) :=
      (List.filter_sublist cs).map Prod.fst
    have hnd' : (dirNames cs).Nodup := hnd.sublist hsub
    have h1 : (dirNames cs).count n = 1 := List.count_eq_one_of_mem hnd' hn
    simp [store_names, List.count_append, h1]

/-- Witness for C10 on a root with two store directories and one stray
file. -/
theorem ls_stores_duplicate_enumeration_witness :
    (([("a", FsTree.dir []), ("x", FsTree.file .truncated), ("b", FsTree.dir [])] :
        List (String × FsTree)).map Prod.fst).Nodup
    ∧ ∃ l, ls_stores (some [("a", FsTree.dir []), ("x", FsTree.file .truncated),
          ("b", FsTree.dir [])]) = .ok l
        ∧ l.length = 2 * (dirNames [("a", FsTree.dir []), ("x", FsTree.file .truncated),
            ("b", FsTree.dir [])]).length
        ∧ ∀ n ∈ dirNames [("a", FsTree.dir []), ("x", FsTree.file .truncated),
            ("b", FsTree.dir [])], l.count n = 2 :=
  ⟨by simp, ls_stores_duplicate_enumeration _ (by simp)⟩

end Coinflip
